import Mathlib

/-!
Verification of the two Arduino sketches in this repository:
`src/examples/Debug_GNSS.cpp` (GNSS bring-up diagnostic sweep) and
`src/examples/GPSwithOLED.cpp` (GPS display demo with antenna-status sniffing).

The embedding is shallow: the clock is a natural-number millisecond counter
(`millis`), serial input is an arrival function from ticks to byte lists,
and display output is a list of abstract draw operations.  Machine `uint32_t`
subtraction (`millis() - timestamp`) is modelled by `usub` with explicit
wraparound modulo 2^32.  The 8-bit serial bytes are naturals below 256.
External library calls (TinyGPS++ parsing, the SSD1306 driver, float
formatting via snprintf) are collaborators outside this repository; their
outputs enter the model as parameters (validity flags, formatted strings).
-/

namespace HeltecGnss

/-! ## Debug_GNSS.cpp: the bring-up diagnostic sweep -/

/-- UART pin constants from `Debug_GNSS.cpp` (variant A: rx=39 tx=38). -/
def RXA : Nat := 39

def TXA : Nat := 38

/-- UART pin constants from `Debug_GNSS.cpp` (variant B: rx=38 tx=39). -/
def RXB : Nat := 38

def TXB : Nat := 39

/-- One `tryCombo` invocation: the label, pins, baud rate and the power/wake
levels current at the time of the call (`true` = HIGH). -/
structure Combo where
  power : Bool
  wake : Bool
  label : String
  rx : Nat
  tx : Nat
  baud : Nat
deriving DecidableEq

/-- The six unrolled `tryCombo` calls in the body of the power/wake loop of
`setup` in `Debug_GNSS.cpp`, in source order: pins A at 9600, 38400, 115200,
then pins B at the same rates. -/
def innerTrials (p w : Bool) : List Combo :=
  [⟨p, w, "PinsA", RXA, TXA, 9600⟩,
   ⟨p, w, "PinsA", RXA, TXA, 38400⟩,
   ⟨p, w, "PinsA", RXA, TXA, 115200⟩,
   ⟨p, w, "PinsB", RXB, TXB, 9600⟩,
   ⟨p, w, "PinsB", RXB, TXB, 38400⟩,
   ⟨p, w, "PinsB", RXB, TXB, 115200⟩]

/-- The full nested sweep of `setup`: `for p` (0 then 1) outer, `for w`
(0 then 1) next, then the six unrolled trials.  `p = 0` drives the power
pin LOW (`false`), `p = 1` HIGH (`true`); likewise for wake. -/
def sweepCombos : List Combo :=
  [false, true].flatMap fun p => [false, true].flatMap fun w => innerTrials p w

/-- A whole program run of `Debug_GNSS.cpp`: the runtime calls `setup` once,
then calls the empty `loop` some number of times; only `setup` opens capture
windows (one `dumpForMs` per `tryCombo`). -/
def diagRun (loopIters : Nat) : List Combo :=
  sweepCombos ++ (List.replicate loopIters ([] : List Combo)).flatten

/-! ## Debug_GNSS.cpp: byte rendering of `dumpForMs` -/

/-- One hex digit as printed by the Arduino core for bases above 10:
`c < 10 ? c + '0' : c + 'A' - 10` (uppercase). -/
def hexDigit (n : Nat) : Char :=
  if n < 10 then Char.ofNat (48 + n) else Char.ofNat (55 + n)

/-- The digit accumulation of the Arduino `printNumber` do-while loop in
base 16: emits at least one digit, most significant first.  The `fuel`
argument only bounds the iteration count for structural recursion; any
fuel of at least the digit count (so in particular `n + 1`) gives the
do-while's result. -/
def hexGo (fuel n : Nat) (acc : List Char) : List Char :=
  match fuel with
  | 0 => acc
  | f + 1 =>
    let acc2 := hexDigit (n % 16) :: acc
    if n / 16 = 0 then acc2 else hexGo f (n / 16) acc2

/-- `Serial.print(b, HEX)`: minimal-length uppercase hexadecimal. -/
def hexRepr (b : Nat) : String := String.mk (hexGo (b + 1) b [])

/-- Rendering of one received byte in `dumpForMs`: a `'0'` pad when `b < 16`,
the hex value, a space, the printable character (0x20..0x7E) or `'.'`,
and a final space. -/
def renderByte (b : Nat) : String :=
  (if b < 16 then "0" else "") ++ hexRepr b ++ " "
    ++ (if 32 ≤ b ∧ b ≤ 126 then String.mk [Char.ofNat b] else ".") ++ " "

/-- The spec's wording of the per-byte rendering: a two-digit uppercase hex
value, a space, the printable-ASCII form or a dot, a space.  Stated
independently of the source for the refinement comparison. -/
def specHexDigit (n : Nat) : Char :=
  if n < 10 then Char.ofNat (48 + n) else Char.ofNat (65 + (n - 10))

/-- Spec-side rendering of a byte (see `specHexDigit`). -/
def specRenderByte (b : Nat) : String :=
  String.mk [specHexDigit (b / 16), specHexDigit (b % 16)] ++ " "
    ++ (if 32 ≤ b ∧ b ≤ 126 then String.mk [Char.ofNat b] else ".") ++ " "

/-- The capture loop of `dumpForMs`: while `millis() < endAt`, drain and
render every available byte.  Time is a millisecond tick counter; `avail t`
lists the bytes drained during tick `t`.  Returns (byte count, exit time,
rendered output).  The diagnostic finishes within minutes of boot, so the
counter stays far below the 2^32 ms wrap and is modelled as a plain `Nat`. -/
def dumpGo (avail : Nat → List Nat) (fuel endAt t cnt : Nat) (out : String) :
    Nat × Nat × String :=
  match fuel with
  | 0 => (cnt, t, out)
  | f + 1 =>
    if t < endAt then
      dumpGo avail f endAt (t + 1) (cnt + (avail t).length)
        (out ++ String.join ((avail t).map renderByte))
    else (cnt, t, out)

/-- `dumpForMs`: computes `endAt = millis() + ms`, runs the capture loop,
then prints a newline and `bytes read: <cnt>`.  The while loop advances
one tick per iteration, so `ms` fuel makes the structural recursion reach
the deadline exactly as the source loop does. -/
def dumpForMs (avail : Nat → List Nat) (start ms : Nat) : Nat × Nat × String :=
  let g := dumpGo avail ms (start + ms) start 0 ""
  (g.1, g.2.1, g.2.2 ++ "\n" ++ ("bytes read: " ++ toString g.1 ++ "\n"))

/-- The capture window opened by `tryCombo`: always `dumpForMs(3000)`. -/
def tryComboDump (avail : Nat → List Nat) (start : Nat) : Nat × Nat × String :=
  dumpForMs avail start 3000

/-! ## GPSwithOLED.cpp: GPTXT line sniffing and antenna status -/

/-- Capacity of the `static char txtBuf[80]` line buffer in `loop`. -/
def CAP : Nat := 80

/-- The byte codes of the keyword `"ANTENNA"` searched with `strstr`. -/
def antennaKw : List Nat := [65, 78, 84, 69, 78, 78, 65]

/-- The byte codes of the keyword `"OPEN"` searched with `strstr`. -/
def openKw : List Nat := [79, 80, 69, 78]

/-- `leadsWith pat l` is true when `pat` is an initial segment of `l`. -/
def leadsWith : List Nat → List Nat → Bool
  | [], _ => true
  | _ :: _, [] => false
  | p :: ps, x :: xs => p == x && leadsWith ps xs

/-- `containsSeq pat l`: `strstr` semantics, `pat` occurs contiguously in
`l` (always true for the empty pattern). -/
def containsSeq : List Nat → List Nat → Bool
  | pat, [] => leadsWith pat []
  | pat, x :: xs => leadsWith pat (x :: xs) || containsSeq pat xs

/-- The C string read out of the buffer by `strstr`: everything before the
first NUL byte. -/
def lineOf (buf : List Nat) : List Nat := buf.takeWhile fun b => !(b == 0)

/-- The mutable state of the sniffing code in `loop`: the 80-byte buffer
(as a length-80 list), the write index, and the two antenna globals. -/
structure SniffState where
  buf : List Nat
  idx : Nat
  antennaOpen : Bool
  lastAntennaMsg : Nat

/-- Boot state: statics and globals are zero-initialised. -/
def initSniff : SniffState := ⟨List.replicate CAP 0, 0, false, 0⟩

/-- The raw buffer writes performed for one incoming byte `c` at write index
`idx`: after the `'$'` reset, if the guarded index is below `CAP - 1` the
byte is stored and a NUL terminator follows it; otherwise nothing is
written. -/
def sniffWrites (idx c : Nat) : List (Nat × Nat) :=
  let idx0 := if c = 36 then 0 else idx
  if idx0 < CAP - 1 then [(idx0, c), (idx0 + 1, 0)] else []

/-- Applies buffer writes (index, value) in order. -/
def applyWrites (buf : List Nat) (ws : List (Nat × Nat)) : List Nat :=
  ws.foldl (fun b w => b.set w.1 w.2) buf

/-- The write index after one incoming byte, before any `'\n'` reset. -/
def nextIdx (idx c : Nat) : Nat :=
  let idx0 := if c = 36 then 0 else idx
  if idx0 < CAP - 1 then idx0 + 1 else idx0

/-- Processing of one byte `c` read at time `now` by the sniffing block of
`loop`: `'$'` rewinds the index, the guarded append stores the byte plus a
NUL, and on `'\n'` the accumulated C string is tested for `"ANTENNA"`
(updating the antenna flag from the presence of `"OPEN"` and the timestamp
from the clock) before the index is reset. -/
def sniffByte (now : Nat) (s : SniffState) (c : Nat) : SniffState :=
  if c = 10 then
    if containsSeq antennaKw (lineOf (applyWrites s.buf (sniffWrites s.idx c))) then
      ⟨applyWrites s.buf (sniffWrites s.idx c), 0,
        containsSeq openKw (lineOf (applyWrites s.buf (sniffWrites s.idx c))), now⟩
    else ⟨applyWrites s.buf (sniffWrites s.idx c), 0, s.antennaOpen, s.lastAntennaMsg⟩
  else ⟨applyWrites s.buf (sniffWrites s.idx c), nextIdx s.idx c,
    s.antennaOpen, s.lastAntennaMsg⟩

/-- A run of the sniffing code over a trace of (arrival time, byte) pairs,
starting at boot. -/
def sniffRun (tr : List (Nat × Nat)) : SniffState :=
  tr.foldl (fun s p => sniffByte p.1 s p.2) initSniff

/-! ## GPSwithOLED.cpp: the render tick -/

/-- `uint32_t` range. -/
def U32 : Nat := 4294967296

/-- `uint32_t` subtraction `a - b` (for `a, b < U32`), as in
`millis() - lastAntennaMsg` and `millis() - lastUi`. -/
def usub (a b : Nat) : Nat := (a + U32 - b) % U32

/-- Abstract display operations issued during one redraw. -/
inductive DrawOp where
  | clear : DrawOp
  | text : Nat → Nat → String → DrawOp
  | bar : Nat → Nat → Nat → Nat → Nat → DrawOp
  | flush : DrawOp
deriving DecidableEq

/-- The render-related statics of `loop`: `lastUi` and the SEARCHING-state
`counter`. -/
structure UiState where
  lastUi : Nat
  counter : Nat
deriving DecidableEq

/-- Boot values of the render statics. -/
def initUi : UiState := ⟨0, 0⟩

/-- The antenna badge block: drawn at the top right only while the last
antenna message is less than 5000 ms old (uint32 clock difference), with
text chosen by the antenna-open flag. -/
def badgeOps (now lam : Nat) (ao : Bool) : List DrawOp :=
  if usub now lam < 5000 then
    [DrawOp.text 127 0 (if ao then "ANT OPEN" else "ANT OK")]
  else []

/-- The UI part of one `loop` iteration.  Inputs owned by the parser
library enter as parameters: `gpsUpdated` (`location.isUpdated ||
time.isUpdated`), the validity flags, and the three formatted strings.
A redraw happens when new data arrived or at least 1000 ms passed since
`lastUi`; it clears the display, draws either the searching screen (label
plus progress bar, bumping the counter) or the time/position lines, then
the antenna badge, the uptime footer, and flushes the frame.  Otherwise
the statics are untouched and no draw operation is issued. -/
def uiTick (now : Nat) (gpsUpdated hasTime hasLoc : Bool)
    (tStr laStr loStr : String) (ao : Bool) (lam : Nat) (ui : UiState) :
    UiState × List DrawOp :=
  if gpsUpdated = true ∨ 1000 ≤ usub now ui.lastUi then
    let body : List DrawOp × Nat :=
      if !hasTime && !hasLoc then
        ([DrawOp.text 0 10 "Searching GPS ...",
          DrawOp.bar 0 32 120 10 ((ui.counter / 5) % 100)], ui.counter + 1)
      else
        ([DrawOp.text 0 0 tStr, DrawOp.text 0 12 laStr,
          DrawOp.text 0 24 loStr], ui.counter)
    (⟨now, body.2⟩,
      DrawOp.clear :: (body.1 ++ badgeOps now lam ao
        ++ [DrawOp.text 127 54 (toString (now / 1000) ++ "s"), DrawOp.flush]))
  else (ui, [])

/-! ## Theorems -/

set_option maxRecDepth 20000

theorem flatten_replicate_nil (n : Nat) :
    (List.replicate n ([] : List Combo)).flatten = [] := by
  induction n with
  | zero => rfl
  | succ k ih => simp [List.replicate_succ, ih]

/-- C1 counterexample: the sweep opens one capture window per `tryCombo`
call, and there are 24 such calls (2 power levels × 2 wake levels × 6
unrolled trials), not 144. -/
theorem sweep_not_144 :
    sweepCombos.length = 24 ∧ ¬ (sweepCombos.length = 144) := by decide

/-- C1 (amended): the diagnostic sweep runs exactly once (the empty `loop`
adds no further windows), visits the combinations in the fixed nested order
(power outer, wake next, pin variant next, baud innermost), performs each of
the 6 inner baud-rate trials exactly once per power/wake combination, and
opens exactly 24 capture windows in total. -/
theorem sweep_order_and_count :
    (∀ n, diagRun n = sweepCombos)
    ∧ sweepCombos.length = 24
    ∧ sweepCombos =
        [⟨false, false, "PinsA", 39, 38, 9600⟩,
         ⟨false, false, "PinsA", 39, 38, 38400⟩,
         ⟨false, false, "PinsA", 39, 38, 115200⟩,
         ⟨false, false, "PinsB", 38, 39, 9600⟩,
         ⟨false, false, "PinsB", 38, 39, 38400⟩,
         ⟨false, false, "PinsB", 38, 39, 115200⟩,
         ⟨false, true, "PinsA", 39, 38, 9600⟩,
         ⟨false, true, "PinsA", 39, 38, 38400⟩,
         ⟨false, true, "PinsA", 39, 38, 115200⟩,
         ⟨false, true, "PinsB", 38, 39, 9600⟩,
         ⟨false, true, "PinsB", 38, 39, 38400⟩,
         ⟨false, true, "PinsB", 38, 39, 115200⟩,
         ⟨true, false, "PinsA", 39, 38, 9600⟩,
         ⟨true, false, "PinsA", 39, 38, 38400⟩,
         ⟨true, false, "PinsA", 39, 38, 115200⟩,
         ⟨true, false, "PinsB", 38, 39, 9600⟩,
         ⟨true, false, "PinsB", 38, 39, 38400⟩,
         ⟨true, false, "PinsB", 38, 39, 115200⟩,
         ⟨true, true, "PinsA", 39, 38, 9600⟩,
         ⟨true, true, "PinsA", 39, 38, 38400⟩,
         ⟨true, true, "PinsA", 39, 38, 115200⟩,
         ⟨true, true, "PinsB", 38, 39, 9600⟩,
         ⟨true, true, "PinsB", 38, 39, 38400⟩,
         ⟨true, true, "PinsB", 38, 39, 115200⟩]
    ∧ (∀ p w : Bool,
        ((sweepCombos.filter fun c => c.power == p && c.wake == w).map
            fun c => (c.label, c.baud))
          = [("PinsA", 9600), ("PinsA", 38400), ("PinsA", 115200),
             ("PinsB", 9600), ("PinsB", 38400), ("PinsB", 115200)]) := by
  refine ⟨fun n => ?_, by decide, by decide, ?_⟩
  · show sweepCombos ++ _ = sweepCombos
    rw [flatten_replicate_nil, List.append_nil]
  · intro p w
    cases p <;> cases w <;> decide

/-- C5 counterexample: the full rendering of byte 0x07 is `"07 . "` (hex
pair, space, dot for a non-printable byte, space), not `"07 "`. -/
theorem renderByte_07_counterexample :
    renderByte 7 = "07 . " ∧ ¬ (renderByte 7 = "07 ") := by decide

/-- C5 (amended): every byte value below 256 renders as its two-digit
uppercase hex value, a space, its ASCII character when within 0x20..0x7E
and a dot otherwise, and a final space; in particular 0x07 yields
`"07 . "`, 0x41 yields `"41 A "`, and 0x00 yields `"00 . "`. -/
theorem renderByte_format :
    (∀ b, b < 256 → renderByte b = specRenderByte b)
    ∧ renderByte 7 = "07 . "
    ∧ renderByte 65 = "41 A "
    ∧ renderByte 0 = "00 . " :=
  ⟨by decide, by decide, by decide, by decide⟩

/-- Witness for `renderByte_format` at byte 0x41. -/
theorem renderByte_format_w :
    (65 : Nat) < 256 ∧ renderByte 65 = specRenderByte 65 :=
  ⟨by decide, renderByte_format.1 65 (by decide)⟩

theorem dumpGo_time (avail : Nat → List Nat) (k : Nat) :
    ∀ (t cnt : Nat) (out : String),
      (dumpGo avail k (t + k) t cnt out).2.1 = t + k := by
  induction k with
  | zero => intro t cnt out; rfl
  | succ n ih =>
    intro t cnt out
    rw [dumpGo, if_pos (by omega : t < t + (n + 1))]
    have h2 : t + (n + 1) = (t + 1) + n := by omega
    rw [h2]
    exact ih (t + 1) _ _

theorem dumpGo_count (avail : Nat → List Nat) (k : Nat) :
    ∀ (t cnt : Nat) (out : String),
      (dumpGo avail k (t + k) t cnt out).1
        = cnt + (Finset.range k).sum (fun i => (avail (t + i)).length) := by
  induction k with
  | zero => intro t cnt out; simp [dumpGo]
  | succ n ih =>
    intro t cnt out
    rw [dumpGo, if_pos (by omega : t < t + (n + 1))]
    have h2 : t + (n + 1) = (t + 1) + n := by omega
    rw [h2]
    rw [ih (t + 1) _ _]
    rw [Finset.sum_range_succ']
    have h3 : (Finset.range n).sum (fun i => (avail (t + (i + 1))).length)
        = (Finset.range n).sum (fun i => (avail ((t + 1) + i)).length) :=
      Finset.sum_congr rfl fun i _ => by rw [show t + (i + 1) = t + 1 + i from by omega]
    rw [h3]
    simp only [Nat.add_zero]
    omega

/-- C4: the capture window opened by `tryCombo` exits at exactly
`start + 3000` for every pattern of byte arrivals (including none), counts
exactly the bytes that arrived inside the window, and afterwards prints the
total byte count. -/
theorem dump_window_exact (avail : Nat → List Nat) (start : Nat) :
    (tryComboDump avail start).2.1 = start + 3000
    ∧ (tryComboDump avail start).1
        = (Finset.range 3000).sum (fun i => (avail (start + i)).length)
    ∧ ∃ pre, (tryComboDump avail start).2.2
        = pre ++ ("bytes read: " ++ toString (tryComboDump avail start).1 ++ "\n") := by
  refine ⟨?_, ?_, ?_⟩
  · show (dumpGo avail 3000 (start + 3000) start 0 "").2.1 = start + 3000
    exact dumpGo_time avail 3000 start 0 ""
  · show (dumpGo avail 3000 (start + 3000) start 0 "").1 = _
    rw [dumpGo_count avail 3000 start 0 ""]
    omega
  · exact ⟨(dumpGo avail 3000 (start + 3000) start 0 "").2.2 ++ "\n", rfl⟩

/-- C2: on a line-terminator byte the antenna flag becomes the result of the
`"OPEN"` search exactly when the buffered C string contains `"ANTENNA"`, and
the timestamp becomes the current clock value; in every other case (no
terminator, or a line without the keyword) both globals are left unchanged. -/
theorem antenna_update_iff (now : Nat) (s : SniffState) (c : Nat) :
    ((sniffByte now s c).antennaOpen
      = if c = 10
            ∧ containsSeq antennaKw (lineOf (applyWrites s.buf (sniffWrites s.idx c))) = true
        then containsSeq openKw (lineOf (applyWrites s.buf (sniffWrites s.idx c)))
        else s.antennaOpen)
    ∧ ((sniffByte now s c).lastAntennaMsg
      = if c = 10
            ∧ containsSeq antennaKw (lineOf (applyWrites s.buf (sniffWrites s.idx c))) = true
        then now
        else s.lastAntennaMsg) := by
  by_cases h10 : c = 10
  · subst h10
    by_cases hA :
        containsSeq antennaKw (lineOf (applyWrites s.buf (sniffWrites s.idx 10))) = true
    · simp [sniffByte, hA]
    · simp [sniffByte, hA]
  · simp [sniffByte, h10]

theorem sniffByte_buf (now : Nat) (s : SniffState) (c : Nat) :
    (sniffByte now s c).buf = applyWrites s.buf (sniffWrites s.idx c) := by
  unfold sniffByte
  split
  · split <;> rfl
  · rfl

theorem sniffByte_idx (now : Nat) (s : SniffState) (c : Nat) :
    (sniffByte now s c).idx = if c = 10 then 0 else nextIdx s.idx c := by
  unfold sniffByte
  split
  · split <;> simp_all
  · simp_all

def SniffInv (s : SniffState) : Prop :=
  s.buf.length = CAP ∧ s.idx < CAP ∧ ∃ j, j < CAP ∧ s.buf[j]? = some 0

theorem sniff_inv_init : SniffInv initSniff :=
  ⟨by decide, by decide, 0, by decide, by decide⟩

theorem sniff_inv_step (now : Nat) (s : SniffState) (c : Nat) (h : SniffInv s) :
    SniffInv (sniffByte now s c) := by
  obtain ⟨hlen, hidx, j, hj, hj0⟩ := h
  have hb : (applyWrites s.buf (sniffWrites s.idx c)).length = CAP
      ∧ ∃ j2, j2 < CAP ∧ (applyWrites s.buf (sniffWrites s.idx c))[j2]? = some 0 := by
    by_cases hlt : (if c = 36 then 0 else s.idx) < CAP - 1
    · have he : applyWrites s.buf (sniffWrites s.idx c)
          = (s.buf.set (if c = 36 then 0 else s.idx) c).set
              ((if c = 36 then 0 else s.idx) + 1) 0 := by
        simp [applyWrites, sniffWrites, hlt]
      rw [he]
      refine ⟨by simp [hlen], (if c = 36 then 0 else s.idx) + 1, ?_, ?_⟩
      · simp only [CAP] at hlt ⊢; omega
      · exact List.getElem?_set_self (by simp only [List.length_set, hlen, CAP] at hlt ⊢; omega)
    · have he : applyWrites s.buf (sniffWrites s.idx c) = s.buf := by
        simp [applyWrites, sniffWrites, hlt]
      rw [he]
      exact ⟨hlen, j, hj, hj0⟩
  have hnext : nextIdx s.idx c < CAP := by
    unfold nextIdx
    by_cases hlt : (if c = 36 then 0 else s.idx) < CAP - 1
    · rw [if_pos hlt]; simp only [CAP] at hlt ⊢; omega
    · rw [if_neg hlt]
      by_cases h36 : c = 36
      · rw [if_pos h36]; simp only [CAP]; omega
      · rw [if_neg h36]; exact hidx
  refine ⟨?_, ?_, ?_⟩
  · rw [sniffByte_buf]; exact hb.1
  · rw [sniffByte_idx]
    split
    · simp only [CAP]; omega
    · exact hnext
  · rw [sniffByte_buf]; exact hb.2

theorem sniff_inv_run (tr : List (Nat × Nat)) : SniffInv (sniffRun tr) := by
  suffices h : ∀ (l : List (Nat × Nat)) (s : SniffState), SniffInv s →
      SniffInv (l.foldl (fun s p => sniffByte p.1 s p.2) s) from
    h tr initSniff sniff_inv_init
  intro l
  induction l with
  | nil => intro s hs; exact hs
  | cons p rest ih => intro s hs; exact ih _ (sniff_inv_step p.1 s p.2 hs)

theorem sniffWrites_bound (idx c : Nat) :
    ((sniffWrites idx c).all fun w => decide (w.1 < CAP)) = true := by
  simp only [sniffWrites]
  by_cases hlt : (if c = 36 then 0 else idx) < CAP - 1
  · rw [if_pos hlt]
    simp only [List.all_cons, List.all_nil, Bool.and_true, Bool.and_eq_true,
      decide_eq_true_eq]
    simp only [CAP] at hlt ⊢
    omega
  · rw [if_neg hlt]; rfl

theorem sniff_full_drop (now : Nat) (s : SniffState) (c : Nat)
    (hfull : s.idx = CAP - 1) (hd : c ≠ 36) (hn : c ≠ 10) :
    sniffByte now s c = s := by
  obtain ⟨buf, idx, ao, lam⟩ := s
  simp only at hfull
  subst hfull
  simp [sniffByte, sniffWrites, applyWrites, nextIdx, hd, hn, CAP]

/-- C3: for every input trace, the sniffing buffer keeps its 80-byte
capacity, its write index stays below 80, a NUL terminator is present
within capacity, every raw write lands below index 80, a full buffer
(index 79) drops any non-reset byte without changing the state at all,
a `'\n'` resets the index to zero, and a `'$'` restarts the buffer at
index zero (storing `'$'` there). -/
theorem buffer_safety (tr : List (Nat × Nat)) (now c : Nat)
    (hfull : (sniffRun tr).idx = CAP - 1) (hd : c ≠ 36) (hn : c ≠ 10) :
    (∀ (tr2 : List (Nat × Nat)) (c2 : Nat),
        (sniffRun tr2).buf.length = CAP
        ∧ (sniffRun tr2).idx < CAP
        ∧ (∃ j, j < CAP ∧ (sniffRun tr2).buf[j]? = some 0)
        ∧ ((sniffWrites (sniffRun tr2).idx c2).all fun w => decide (w.1 < CAP)) = true)
    ∧ sniffByte now (sniffRun tr) c = sniffRun tr
    ∧ (sniffByte now (sniffRun tr) 10).idx = 0
    ∧ (sniffByte now (sniffRun tr) 36).idx = 1
    ∧ (sniffByte now (sniffRun tr) 36).buf[0]? = some 36 := by
  refine ⟨fun tr2 c2 => ?_, sniff_full_drop now _ c hfull hd hn, ?_, ?_, ?_⟩
  · obtain ⟨h1, h2, h3⟩ := sniff_inv_run tr2
    exact ⟨h1, h2, h3, sniffWrites_bound _ c2⟩
  · rw [sniffByte_idx]
    simp
  · rw [sniffByte_idx]
    simp [nextIdx, CAP]
  · have hlen : (sniffRun tr).buf.length = CAP := (sniff_inv_run tr).1
    rw [sniffByte_buf]
    have hw : sniffWrites (sniffRun tr).idx 36 = [(0, 36), (1, 0)] := by
      simp [sniffWrites, CAP]
    rw [hw]
    simp only [applyWrites, List.foldl]
    rw [List.getElem?_set_ne (by omega)]
    exact List.getElem?_set_self (by rw [hlen]; simp [CAP])

/-- Witness for `buffer_safety`: 79 ordinary bytes fill the buffer to index
79, after which byte `'B'` (0x42) is dropped with the state unchanged. -/
theorem buffer_safety_w :
    (sniffRun (List.replicate 79 ((0 : Nat), (65 : Nat)))).idx = CAP - 1
    ∧ sniffByte 0 (sniffRun (List.replicate 79 ((0 : Nat), (65 : Nat)))) 66
        = sniffRun (List.replicate 79 ((0 : Nat), (65 : Nat))) :=
  ⟨by decide,
   (buffer_safety (List.replicate 79 ((0 : Nat), (65 : Nat))) 0 66
     (by decide) (by decide) (by decide)).2.1⟩

/-- C8: feeding `"$GPRMC\n"` then `"$GPGGA\n"` leaves no residue: the
second `'$'` restarts the buffer at index zero, and the C string examined
at the second `'\n'` is exactly `"$GPGGA\n"`. -/
theorem line_reset_no_residue :
    lineOf (applyWrites
        (sniffRun (([36, 71, 80, 82, 77, 67, 10, 36, 71, 80, 71, 71, 65] : List Nat).map
          fun b => ((0 : Nat), b))).buf
        (sniffWrites
          (sniffRun (([36, 71, 80, 82, 77, 67, 10, 36, 71, 80, 71, 71, 65] : List Nat).map
            fun b => ((0 : Nat), b))).idx 10))
      = [36, 71, 80, 71, 71, 65, 10]
    ∧ (sniffRun (([36, 71, 80, 82, 77, 67, 10, 36] : List Nat).map
        fun b => ((0 : Nat), b))).idx = 1 := by
  constructor <;> decide

theorem usub_eq (a b : Nat) (hba : b ≤ a) (ha : a < U32) : usub a b = a - b := by
  unfold usub
  rw [show a + U32 - b = (a - b) + U32 from by omega, Nat.add_mod_right]
  exact Nat.mod_eq_of_lt (by omega)

/-- C6: within the uint32 clock's range, the antenna badge block is drawn
exactly when the current time minus the last antenna-status timestamp is
strictly below 5000 ms, with text `"ANT OPEN"` when the flag is set and
`"ANT OK"` otherwise; outside that window it draws nothing. -/
theorem badge_visibility (now lam : Nat) (ao : Bool)
    (h1 : lam ≤ now) (h2 : now < U32) :
    badgeOps now lam ao
      = if now - lam < 5000 then
          [DrawOp.text 127 0 (if ao then "ANT OPEN" else "ANT OK")]
        else [] := by
  unfold badgeOps
  rw [usub_eq now lam h1 h2]

/-- Witness for `badge_visibility` at `now = 4000`, `lam = 0`. -/
theorem badge_visibility_w :
    (0 : Nat) ≤ 4000 ∧ (4000 : Nat) < U32
    ∧ badgeOps 4000 0 false
        = if (4000 : Nat) - 0 < 5000 then
            [DrawOp.text 127 0 (if false then "ANT OPEN" else "ANT OK")]
          else [] :=
  ⟨by decide, by decide, badge_visibility 4000 0 false (by decide) (by decide)⟩

theorem uiTick_no_redraw (now : Nat) (g ht hl : Bool) (t la lo : String)
    (ao : Bool) (lam : Nat) (ui : UiState)
    (hc : ¬ (g = true ∨ 1000 ≤ usub now ui.lastUi)) :
    uiTick now g ht hl t la lo ao lam ui = (ui, []) := by
  unfold uiTick
  rw [if_neg hc]

theorem uiTick_redraw_ops (now : Nat) (g ht hl : Bool) (t la lo : String)
    (ao : Bool) (lam : Nat) (ui : UiState)
    (hc : g = true ∨ 1000 ≤ usub now ui.lastUi) :
    (uiTick now g ht hl t la lo ao lam ui).2 ≠ []
      ∧ (uiTick now g ht hl t la lo ao lam ui).1.lastUi = now := by
  unfold uiTick
  rw [if_pos hc]
  exact ⟨List.cons_ne_nil _ _, rfl⟩

/-- C7: a loop iteration leaves the render statics untouched and issues no
draw operation precisely when no location/time update was reported and less
than 1000 ms (uint32 clock difference) passed since the last redraw; in
every other case a redraw occurs. -/
theorem redraw_iff (now : Nat) (g ht hl : Bool) (t la lo : String) (ao : Bool)
    (lam : Nat) (ui : UiState) (h1 : ui.lastUi ≤ now) (h2 : now < U32) :
    ((uiTick now g ht hl t la lo ao lam ui).1 = ui
      ∧ (uiTick now g ht hl t la lo ao lam ui).2 = [])
    ↔ (g = false ∧ now - ui.lastUi < 1000) := by
  by_cases hc : g = true ∨ 1000 ≤ usub now ui.lastUi
  · obtain ⟨hne, -⟩ := uiTick_redraw_ops now g ht hl t la lo ao lam ui hc
    constructor
    · rintro ⟨-, h4⟩
      exact absurd h4 hne
    · rintro ⟨hg, hlt⟩
      exfalso
      rcases hc with hc | hc
      · rw [hg] at hc
        cases hc
      · rw [usub_eq now ui.lastUi h1 h2] at hc
        omega
  · rw [uiTick_no_redraw now g ht hl t la lo ao lam ui hc]
    rw [not_or] at hc
    obtain ⟨hg, hlt⟩ := hc
    rw [usub_eq now ui.lastUi h1 h2] at hlt
    constructor
    · intro _
      exact ⟨Bool.not_eq_true g ▸ hg, by omega⟩
    · intro _
      exact ⟨rfl, rfl⟩

/-- Witness for `redraw_iff` at `now = 500` with no update since boot. -/
theorem redraw_iff_w :
    initUi.lastUi ≤ 500 ∧ (500 : Nat) < U32
    ∧ (((uiTick 500 false false false "" "" "" false 0 initUi).1 = initUi
        ∧ (uiTick 500 false false false "" "" "" false 0 initUi).2 = [])
      ↔ ((false : Bool) = false ∧ 500 - initUi.lastUi < 1000)) :=
  ⟨by decide, by decide,
   redraw_iff 500 false false false "" "" "" false 0 initUi (by decide) (by decide)⟩

/-- C9: on every render pass taken in the SEARCHING state (no valid time,
no valid location), the progress bar is filled to `(counter / 5) % 100`,
which is always below 100 (and trivially never negative over `Nat`), and
the tick counter advances by exactly one. -/
theorem searching_progress (now : Nat) (g : Bool) (t la lo : String) (ao : Bool)
    (lam : Nat) (ui : UiState) (hc : g = true ∨ 1000 ≤ usub now ui.lastUi) :
    (uiTick now g false false t la lo ao lam ui).1.counter = ui.counter + 1
    ∧ (uiTick now g false false t la lo ao lam ui).2.take 3
        = [DrawOp.clear, DrawOp.text 0 10 "Searching GPS ...",
           DrawOp.bar 0 32 120 10 ((ui.counter / 5) % 100)]
    ∧ (ui.counter / 5) % 100 < 100 := by
  unfold uiTick
  rw [if_pos hc]
  exact ⟨rfl, rfl, Nat.mod_lt _ (by omega)⟩

/-- Witness for `searching_progress` on the first pass after boot. -/
theorem searching_progress_w :
    ((true : Bool) = true ∨ 1000 ≤ usub 0 initUi.lastUi)
    ∧ (uiTick 0 true false false "" "" "" false 0 initUi).1.counter
        = initUi.counter + 1 :=
  ⟨Or.inl rfl, (searching_progress 0 true "" "" "" false 0 initUi (Or.inl rfl)).1⟩

/-- C10: with the boot values of the antenna globals (flag `false`,
timestamp `0`), every render pass during the first 5000 ms of uptime draws
the badge with text `"ANT OK"`, although no antenna line was ever
received. -/
theorem initial_badge_ant_ok (now : Nat) (g ht hl : Bool) (t la lo : String)
    (ui : UiState) (h5 : now < 5000) (hc : g = true ∨ 1000 ≤ usub now ui.lastUi) :
    DrawOp.text 127 0 "ANT OK"
      ∈ (uiTick now g ht hl t la lo initSniff.antennaOpen
          initSniff.lastAntennaMsg ui).2 := by
  have hb : badgeOps now initSniff.lastAntennaMsg initSniff.antennaOpen
      = [DrawOp.text 127 0 "ANT OK"] := by
    show badgeOps now 0 false = _
    unfold badgeOps
    rw [usub_eq now 0 (Nat.zero_le now) (Nat.lt_of_lt_of_le h5 (by decide))]
    rw [if_pos (by omega)]
    rfl
  simp only [uiTick, eq_true hc, if_true, hb]
  simp

/-- Witness for `initial_badge_ant_ok` at `now = 100` on an update tick. -/
theorem initial_badge_ant_ok_w :
    (100 : Nat) < 5000
    ∧ DrawOp.text 127 0 "ANT OK"
        ∈ (uiTick 100 true false false "" "" "" initSniff.antennaOpen
            initSniff.lastAntennaMsg initUi).2 :=
  ⟨by decide,
   initial_badge_ant_ok 100 true false false "" "" "" initUi (by decide) (Or.inl rfl)⟩

end HeltecGnss
